import Mathlib

/-!
Verification of the tmarks user-preferences endpoint
(`functions/api/v1/preferences.ts`) against its natural-language
specification.  The handler is embedded shallowly: the D1 database is a
list of rows plus two schema-capability flags, responses are an inductive
type mirroring the `success` / `badRequest` / `notFound` / `internalError`
helpers, and every store access the handler performs is recorded in a
trace of `StoreOp` values, in source order.
-/

namespace TMarks

/-- A persisted `user_preferences` row.  `tag_layout` and `sort_by` are
`Option` because older schemas lack the columns (and the fetched object
then simply has no such field), and because the TS interface marks them
optional. -/
structure Row where
  user_id : String
  theme : String
  page_size : Int
  view_mode : String
  density : String
  tag_layout : Option String
  sort_by : Option String
  updated_at : String
deriving DecidableEq, Repr

/-- The JSON body of a PATCH request (`UpdatePreferencesRequest`): each of
the six mutable fields may be absent (`none` = `undefined`). -/
structure UpdateBody where
  theme : Option String := none
  page_size : Option Int := none
  view_mode : Option String := none
  density : Option String := none
  tag_layout : Option String := none
  sort_by : Option String := none
deriving DecidableEq, Repr

/-- A value bound into a SQL statement (`SQLParam`). -/
inductive SQLVal where
  | str (s : String)
  | int (n : Int)
deriving DecidableEq, Repr

/-- The shape returned inside `success({ preferences: ... })`. -/
structure PrefsOut where
  theme : String
  page_size : Int
  view_mode : String
  density : String
  tag_layout : String
  sort_by : String
  updated_at : String
deriving DecidableEq, Repr

/-- The response envelope produced by the handler, one constructor per
helper from `lib/response`. -/
inductive Resp where
  | success (p : PrefsOut)
  | badRequest (msg : String)
  | notFound (msg : String)
  | internalError (msg : String)
deriving DecidableEq, Repr

/-- One store access, recorded in source order: the two capability-probe
reads, a `SELECT * ... WHERE user_id = ?` read, and the dynamic
`UPDATE user_preferences SET ... WHERE user_id = ?` write carrying its
column-assignment list. -/
inductive StoreOp where
  | probeTagLayout
  | probeSortBy
  | selectRow (uid : String)
  | updateRow (uid : String) (assigns : List (String × SQLVal))
deriving DecidableEq, Repr

/-- `true` only for the `UPDATE` statement. -/
def StoreOp.isWrite : StoreOp → Bool
  | .updateRow _ _ => true
  | _ => false

/-- The D1 database as the handler sees it: the `user_preferences` rows
plus whether the migration adding `tag_layout` / `sort_by` has run (this
is what the two probes report on a healthy store). -/
structure DB where
  rows : List Row
  tagLayoutSupported : Bool
  sortBySupported : Bool
deriving DecidableEq, Repr

/-- `SELECT * FROM user_preferences WHERE user_id = ?` followed by
`.first()`. -/
def findRow (rows : List Row) (uid : String) : Option Row :=
  rows.find? (fun r => r.user_id == uid)

def DB.getRow (db : DB) (uid : String) : Option Row :=
  findRow db.rows uid

/-- Projection of a row into the response shape, with the default
substitutions `tag_layout ?? 'grid'` and `sort_by ?? 'popular'`. -/
def project (r : Row) : PrefsOut :=
  { theme := r.theme
    page_size := r.page_size
    view_mode := r.view_mode
    density := r.density
    tag_layout := r.tag_layout.getD "grid"
    sort_by := r.sort_by.getD "popular"
    updated_at := r.updated_at }

/- ### The schema-capability probe (`hasTagLayoutColumn` / `hasSortByColumn`)

The probe's trial read either raises nothing or throws a value; in JS the
thrown value need not be an `Error` instance, so the model keeps that
flag next to the message. -/

/-- A value thrown by the store client. -/
structure StoreError where
  isErrorInstance : Bool
  message : String
deriving DecidableEq, Repr

/-- What the probe does: return a boolean or re-throw. -/
inductive ProbeOutcome where
  | returns (b : Bool)
  | throws (e : StoreError)
deriving DecidableEq, Repr

/-- Does `pat` occur as a leading segment of `l`? -/
def startsWithL : List Char → List Char → Bool
  | [], _ => true
  | _ :: _, [] => false
  | a :: as, b :: bs => a == b && startsWithL as bs

/-- Does `pat` occur as a contiguous segment anywhere in `l`? -/
def containsSeq (pat : List Char) : List Char → Bool
  | [] => startsWithL pat []
  | c :: cs => startsWithL pat (c :: cs) || containsSeq pat cs

/-- Lower-cased character list of a string. -/
def lowerStr (s : String) : List Char :=
  s.data.map Char.toLower

/-- The semantics of `/pat/i.test(msg)` for a literal pattern: `pat`
occurs in `msg` up to case. -/
def containsCI (msg pat : String) : Bool :=
  containsSeq (lowerStr pat) (lowerStr msg)

/-- Common body of `hasTagLayoutColumn` / `hasSortByColumn`: `trial` is
the outcome of `SELECT <col> FROM user_preferences LIMIT 1` (`none` when
it succeeded, `some e` when it threw `e`).  On an `Error` whose message
matches `/no such column: <col>/i` the probe returns `false`; any other
throw is re-raised; no throw returns `true`. -/
def hasColumnProbe (col : String) (trial : Option StoreError) : ProbeOutcome :=
  match trial with
  | none => .returns true
  | some e =>
      if e.isErrorInstance && containsCI e.message ("no such column: " ++ col) then
        .returns false
      else
        .throws e

def hasTagLayoutColumn (trial : Option StoreError) : ProbeOutcome :=
  hasColumnProbe "tag_layout" trial

def hasSortByColumn (trial : Option StoreError) : ProbeOutcome :=
  hasColumnProbe "sort_by" trial

/- ### Validation (lines 96-118)

Every guard is of the form `if (body.f && !allowed.includes(body.f))`:
the first conjunct is JS truthiness, so an explicit `""` (for strings) or
`0` (for `page_size`) skips the guard. -/

def themeVals : List String := ["light", "dark"]
def viewModeVals : List String := ["list", "card", "minimal", "title"]
def densityVals : List String := ["compact", "normal", "comfortable"]
def tagLayoutVals : List String := ["grid", "masonry"]
def sortByVals : List String := ["created", "updated", "pinned", "popular"]

/-- `body.f && !allowed.includes(body.f)` for a string field: truthy
(present and non-empty) yet not in the allowed list. -/
def strFieldBad (v : Option String) (allowed : List String) : Bool :=
  match v with
  | some s => s != "" && !(allowed.contains s)
  | none => false

/-- `body.page_size && (body.page_size < 10 || body.page_size > 100)`:
truthy (present and non-zero) yet out of range. -/
def pageSizeBad (v : Option Int) : Bool :=
  match v with
  | some n => n != 0 && (decide (n < 10) || decide (n > 100))
  | none => false

/-- The fail-fast validation chain: `some msg` is the message of the
first guard that trips (a 400), `none` means validation passed. -/
def validate (body : UpdateBody) : Option String :=
  if strFieldBad body.theme themeVals then some "Invalid theme value"
  else if pageSizeBad body.page_size then some "Page size must be between 10 and 100"
  else if strFieldBad body.view_mode viewModeVals then some "Invalid view mode"
  else if strFieldBad body.density densityVals then some "Invalid density value"
  else if strFieldBad body.tag_layout tagLayoutVals then some "Invalid tag layout value"
  else if strFieldBad body.sort_by sortByVals then some "Invalid sort_by value"
  else none

/- ### Assignment-list construction (lines 121-152)

Each always-present column is appended when the field is not `undefined`;
the two optional columns additionally require the capability flag. -/

def themePart (body : UpdateBody) : List (String × SQLVal) :=
  match body.theme with
  | some v => [("theme", SQLVal.str v)]
  | none => []

def pageSizePart (body : UpdateBody) : List (String × SQLVal) :=
  match body.page_size with
  | some v => [("page_size", SQLVal.int v)]
  | none => []

def viewModePart (body : UpdateBody) : List (String × SQLVal) :=
  match body.view_mode with
  | some v => [("view_mode", SQLVal.str v)]
  | none => []

def densityPart (body : UpdateBody) : List (String × SQLVal) :=
  match body.density with
  | some v => [("density", SQLVal.str v)]
  | none => []

def tagLayoutPart (body : UpdateBody) (tls : Bool) : List (String × SQLVal) :=
  match body.tag_layout with
  | some v => if tls then [("tag_layout", SQLVal.str v)] else []
  | none => []

def sortByPart (body : UpdateBody) (sbs : Bool) : List (String × SQLVal) :=
  match body.sort_by with
  | some v => if sbs then [("sort_by", SQLVal.str v)] else []
  | none => []

/-- The `updates` / `values` pair built at lines 121-152 (before
`updated_at` is appended), as a list of column-value assignments. -/
def buildUpdates (body : UpdateBody) (tls sbs : Bool) : List (String × SQLVal) :=
  themePart body ++ pageSizePart body ++ viewModePart body ++ densityPart body ++
    tagLayoutPart body tls ++ sortByPart body sbs

/- ### The effect of the dynamic UPDATE on a row -/

/-- Effect of one `col = ?` assignment on a row.  A value of the wrong
SQL type for the column, or an unknown column, leaves the row unchanged
(the handler never produces either). -/
def setCol (r : Row) (c : String) (v : SQLVal) : Row :=
  if c = "theme" then
    match v with | .str s => { r with theme := s } | _ => r
  else if c = "page_size" then
    match v with | .int n => { r with page_size := n } | _ => r
  else if c = "view_mode" then
    match v with | .str s => { r with view_mode := s } | _ => r
  else if c = "density" then
    match v with | .str s => { r with density := s } | _ => r
  else if c = "tag_layout" then
    match v with | .str s => { r with tag_layout := some s } | _ => r
  else if c = "sort_by" then
    match v with | .str s => { r with sort_by := some s } | _ => r
  else if c = "updated_at" then
    match v with | .str s => { r with updated_at := s } | _ => r
  else r

def applyAssign (r : Row) (a : String × SQLVal) : Row :=
  setCol r a.1 a.2

/-- Applying a whole `SET` list, left to right. -/
def applyUpdates (r : Row) (us : List (String × SQLVal)) : Row :=
  us.foldl applyAssign r

/-- `UPDATE user_preferences SET ... WHERE user_id = ?`: every row whose
`user_id` matches is rewritten; a miss affects zero rows and is not an
error. -/
def DB.updateUser (db : DB) (uid : String) (us : List (String × SQLVal)) : DB :=
  { db with rows := db.rows.map (fun r => if r.user_id == uid then applyUpdates r us else r) }

/- ### The two handlers -/

/-- `onRequestGet` (lines 51-83): fetch the row, 404 when absent,
otherwise project with default substitution.  Returns the response, the
(unchanged) database and the trace of store accesses. -/
def onRequestGet (db : DB) (uid : String) : Resp × DB × List StoreOp :=
  match db.getRow uid with
  | none => (.notFound "Preferences not found", db, [.selectRow uid])
  | some r => (.success (project r), db, [.selectRow uid])

/-- `onRequestPatch` (lines 86-223) on a healthy store: the two
capability probes run first (lines 92-93) and report the schema flags;
then validation (96-118); then assignment-list construction (121-152);
then the branch on an empty list (154-181); otherwise the UPDATE with
`updated_at = now` appended, followed by the re-read (183-217).
`now` is the string `new Date().toISOString()` evaluates to. -/
def onRequestPatch (db : DB) (uid : String) (body : UpdateBody) (now : String) :
    Resp × DB × List StoreOp :=
  let probeOps : List StoreOp := [.probeTagLayout, .probeSortBy]
  let tls := db.tagLayoutSupported
  let sbs := db.sortBySupported
  match validate body with
  | some msg => (.badRequest msg, db, probeOps)
  | none =>
    let updates := buildUpdates body tls sbs
    if updates.isEmpty then
      if (body.tag_layout.isSome && !tls) || (body.sort_by.isSome && !sbs) then
        match db.getRow uid with
        | none => (.internalError "Failed to load preferences", db, probeOps ++ [.selectRow uid])
        | some r => (.success (project r), db, probeOps ++ [.selectRow uid])
      else
        (.badRequest "No valid fields to update", db, probeOps)
    else
      let updates2 := updates ++ [("updated_at", SQLVal.str now)]
      let db2 := db.updateUser uid updates2
      match db2.getRow uid with
      | none =>
          (.internalError "Failed to load preferences after update", db2,
            probeOps ++ [.updateRow uid updates2, .selectRow uid])
      | some r =>
          (.success (project r), db2,
            probeOps ++ [.updateRow uid updates2, .selectRow uid])

/-- The row an UPDATE built from `body` (with `updated_at = now`
appended) produces, described field by field: each supplied field is
overwritten (the optional columns only when their flag is set), every
other field keeps its old value, and `updated_at` becomes `now`. -/
def newRow (x : Row) (body : UpdateBody) (tls sbs : Bool) (now : String) : Row :=
  { user_id := x.user_id
    theme := body.theme.getD x.theme
    page_size := body.page_size.getD x.page_size
    view_mode := body.view_mode.getD x.view_mode
    density := body.density.getD x.density
    tag_layout := match body.tag_layout, tls with
      | some v, true => some v
      | _, _ => x.tag_layout
    sort_by := match body.sort_by, sbs with
      | some v, true => some v
      | _, _ => x.sort_by
    updated_at := now }

/- ### Concrete fixtures used by counterexamples and witnesses -/

def row1 : Row :=
  { user_id := "u1", theme := "light", page_size := 42, view_mode := "list",
    density := "normal", tag_layout := some "grid", sort_by := some "popular",
    updated_at := "2023-01-01T00:00:00.000Z" }

/-- A post-migration store holding exactly `row1`. -/
def db1 : DB := { rows := [row1], tagLayoutSupported := true, sortBySupported := true }

/-- A store whose schema still lacks the `tag_layout` column. -/
def dbNoTL : DB := { rows := [row1], tagLayoutSupported := false, sortBySupported := true }

/-- A post-migration store with no rows at all. -/
def dbEmpty : DB := { rows := [], tagLayoutSupported := true, sortBySupported := true }

def t0 : String := "2024-06-01T00:00:00.000Z"
def t1 : String := "2024-06-02T00:00:00.000Z"

def bodyBogusVM : UpdateBody := { view_mode := some "bogus" }
def bodyDark : UpdateBody := { theme := some "dark" }
def bodyPS0 : UpdateBody := { page_size := some 0 }
def bodyTLOnly : UpdateBody := { tag_layout := some "masonry" }
def bodyETheme : UpdateBody := { theme := some "" }
def bodyEVM : UpdateBody := { view_mode := some "" }
def bodyEDensity : UpdateBody := { density := some "" }
def bodyETL : UpdateBody := { tag_layout := some "" }
def bodyESB : UpdateBody := { sort_by := some "" }

/- ### Helper lemmas -/

theorem startsWithL_iff (pat l : List Char) :
    startsWithL pat l = true ↔ ∃ s, l = pat ++ s := by
  induction pat generalizing l with
  | nil => simp [startsWithL]
  | cons a as ih =>
    cases l with
    | nil =>
      simp [startsWithL]
    | cons b bs =>
      rw [show startsWithL (a :: as) (b :: bs) = (a == b && startsWithL as bs) from rfl]
      rw [Bool.and_eq_true, beq_iff_eq, ih]
      constructor
      · rintro ⟨hab, s, hs⟩
        exact ⟨s, by rw [List.cons_append, hab, hs]⟩
      · rintro ⟨s, hs⟩
        rw [List.cons_append] at hs
        injection hs with h1 h2
        exact ⟨h1.symm, s, h2⟩

theorem containsSeq_iff (pat l : List Char) :
    containsSeq pat l = true ↔ ∃ p s, l = p ++ pat ++ s := by
  induction l with
  | nil =>
    rw [show containsSeq pat [] = startsWithL pat [] from rfl, startsWithL_iff]
    constructor
    · rintro ⟨s, hs⟩
      exact ⟨[], s, by rw [List.nil_append]; exact hs⟩
    · rintro ⟨p, s, hs⟩
      have h2 := hs.symm
      simp only [List.append_eq_nil] at h2
      exact ⟨s, by rw [h2.1.2, List.nil_append, h2.2]⟩
  | cons c cs ih =>
    rw [show containsSeq pat (c :: cs) = (startsWithL pat (c :: cs) || containsSeq pat cs) from rfl]
    rw [Bool.or_eq_true, startsWithL_iff, ih]
    constructor
    · rintro (⟨s, hs⟩ | ⟨p, s, hs⟩)
      · exact ⟨[], s, by rw [List.nil_append]; exact hs⟩
      · exact ⟨c :: p, s, by rw [List.cons_append, List.cons_append, hs]⟩
    · rintro ⟨p, s, hs⟩
      cases p with
      | nil =>
        exact Or.inl ⟨s, by rw [List.nil_append] at hs; exact hs⟩
      | cons d ds =>
        rw [List.cons_append, List.cons_append] at hs
        injection hs with h1 h2
        exact Or.inr ⟨ds, s, h2⟩

/-- The case-insensitive match is genuine substring containment of the
lower-cased pattern in the lower-cased message. -/
theorem containsCI_iff (msg pat : String) :
    containsCI msg pat = true ↔ ∃ p s, lowerStr msg = p ++ lowerStr pat ++ s := by
  unfold containsCI
  exact containsSeq_iff _ _

theorem setCol_user_id (r : Row) (c : String) (v : SQLVal) :
    (setCol r c v).user_id = r.user_id := by
  unfold setCol
  repeat' split
  all_goals rfl

theorem applyUpdates_user_id (r : Row) (us : List (String × SQLVal)) :
    (applyUpdates r us).user_id = r.user_id := by
  induction us generalizing r with
  | nil => rfl
  | cons a as ih =>
    show (applyUpdates (applyAssign r a) as).user_id = r.user_id
    rw [ih, applyAssign, setCol_user_id]

theorem findRow_map_update (rows : List Row) (uid : String) (us : List (String × SQLVal)) :
    findRow (rows.map (fun r => if r.user_id == uid then applyUpdates r us else r)) uid =
      (findRow rows uid).map (fun r => applyUpdates r us) := by
  induction rows with
  | nil => rfl
  | cons r rs ih =>
    simp only [findRow, List.map_cons] at ih ⊢
    by_cases h : (r.user_id == uid) = true
    · rw [if_pos h]
      have h2 : ((applyUpdates r us).user_id == uid) = true := by
        rw [applyUpdates_user_id]; exact h
      rw [List.find?_cons_of_pos (p := fun r : Row => r.user_id == uid) _ h2,
        List.find?_cons_of_pos (p := fun r : Row => r.user_id == uid) _ h]
      rfl
    · rw [if_neg h, List.find?_cons_of_neg (p := fun r : Row => r.user_id == uid) _ h,
        List.find?_cons_of_neg (p := fun r : Row => r.user_id == uid) _ h]
      exact ih

/-- The dynamic UPDATE seen through the subsequent re-read: the row the
re-read returns is the old row with the assignments applied. -/
theorem getRow_updateUser (db : DB) (uid : String) (us : List (String × SQLVal)) :
    (db.updateUser uid us).getRow uid = (db.getRow uid).map (fun r => applyUpdates r us) :=
  findRow_map_update db.rows uid us

theorem updateUser_tls (db : DB) (uid : String) (us : List (String × SQLVal)) :
    (db.updateUser uid us).tagLayoutSupported = db.tagLayoutSupported := rfl

theorem updateUser_sbs (db : DB) (uid : String) (us : List (String × SQLVal)) :
    (db.updateUser uid us).sortBySupported = db.sortBySupported := rfl

theorem applyUpdates_buildUpdates (x : Row) (body : UpdateBody) (tls sbs : Bool) (now : String) :
    applyUpdates x (buildUpdates body tls sbs ++ [("updated_at", SQLVal.str now)]) =
      newRow x body tls sbs now := by
  obtain ⟨th, ps, vm, de, tl, sb⟩ := body
  cases th <;> cases ps <;> cases vm <;> cases de <;> cases tl <;> cases sb <;>
    cases tls <;> cases sbs <;> rfl

/-- The whole nonempty-assignment PATCH path in one equation: validation
passed, the assignment list is nonempty and the row exists, so the
handler issues the UPDATE (with `updated_at = now` appended), re-reads
the rewritten row and returns its projection. -/
theorem patch_nonempty_eq (db : DB) (uid : String) (body : UpdateBody) (now : String) (r : Row)
    (hv : validate body = none)
    (hne : (buildUpdates body db.tagLayoutSupported db.sortBySupported).isEmpty = false)
    (hr : db.getRow uid = some r) :
    onRequestPatch db uid body now =
      (Resp.success (project (newRow r body db.tagLayoutSupported db.sortBySupported now)),
       db.updateUser uid
         (buildUpdates body db.tagLayoutSupported db.sortBySupported ++
           [("updated_at", SQLVal.str now)]),
       [.probeTagLayout, .probeSortBy,
        .updateRow uid
          (buildUpdates body db.tagLayoutSupported db.sortBySupported ++
            [("updated_at", SQLVal.str now)]),
        .selectRow uid]) := by
  simp only [onRequestPatch, hv, hne, Bool.false_eq_true, if_false, getRow_updateUser, hr,
    Option.map_some', applyUpdates_buildUpdates, List.cons_append, List.nil_append]

/- Nonemptiness of the assignment list when a given field is supplied. -/

theorem buildUpdates_nonempty_theme (body : UpdateBody) (tls sbs : Bool) (s : String)
    (h : body.theme = some s) :
    (buildUpdates body tls sbs).isEmpty = false := by
  rw [List.isEmpty_eq_false]
  intro hc
  unfold buildUpdates themePart at hc
  rw [h] at hc
  exact List.cons_ne_nil _ _ hc

theorem buildUpdates_nonempty_ps (body : UpdateBody) (tls sbs : Bool) (n : Int)
    (h : body.page_size = some n) :
    (buildUpdates body tls sbs).isEmpty = false := by
  rw [List.isEmpty_eq_false]
  intro hc
  unfold buildUpdates at hc
  simp only [List.append_eq_nil] at hc
  have h2 := hc.1.1.1.1.2
  unfold pageSizePart at h2
  rw [h] at h2
  exact List.cons_ne_nil _ _ h2

theorem buildUpdates_nonempty_vm (body : UpdateBody) (tls sbs : Bool) (s : String)
    (h : body.view_mode = some s) :
    (buildUpdates body tls sbs).isEmpty = false := by
  rw [List.isEmpty_eq_false]
  intro hc
  unfold buildUpdates at hc
  simp only [List.append_eq_nil] at hc
  have h2 := hc.1.1.1.2
  unfold viewModePart at h2
  rw [h] at h2
  exact List.cons_ne_nil _ _ h2

theorem buildUpdates_nonempty_de (body : UpdateBody) (tls sbs : Bool) (s : String)
    (h : body.density = some s) :
    (buildUpdates body tls sbs).isEmpty = false := by
  rw [List.isEmpty_eq_false]
  intro hc
  unfold buildUpdates at hc
  simp only [List.append_eq_nil] at hc
  have h2 := hc.1.1.2
  unfold densityPart at h2
  rw [h] at h2
  exact List.cons_ne_nil _ _ h2

theorem buildUpdates_nonempty_tl (body : UpdateBody) (sbs : Bool) (s : String)
    (h : body.tag_layout = some s) :
    (buildUpdates body true sbs).isEmpty = false := by
  rw [List.isEmpty_eq_false]
  intro hc
  unfold buildUpdates at hc
  simp only [List.append_eq_nil] at hc
  have h2 := hc.1.2
  unfold tagLayoutPart at h2
  rw [h] at h2
  simp at h2

theorem buildUpdates_nonempty_sb (body : UpdateBody) (tls : Bool) (s : String)
    (h : body.sort_by = some s) :
    (buildUpdates body tls true).isEmpty = false := by
  rw [List.isEmpty_eq_false]
  intro hc
  unfold buildUpdates at hc
  simp only [List.append_eq_nil] at hc
  have h2 := hc.2
  unfold sortByPart at h2
  rw [h] at h2
  simp at h2

/- ### C1 -/

/-- C1 counterexample: on a PATCH body with the invalid enum value
`view_mode = "bogus"` the handler does return 400, but its store trace
is not empty — the two schema-capability probe reads (lines 92-93) were
executed before validation, refuting "no store read or write is executed
before the validation result". -/
theorem C1_counterexample :
    (onRequestPatch db1 "u1" bodyBogusVM t0).1 = Resp.badRequest "Invalid view mode" ∧
    (onRequestPatch db1 "u1" bodyBogusVM t0).2.2 =
      [StoreOp.probeTagLayout, StoreOp.probeSortBy] ∧
    (onRequestPatch db1 "u1" bodyBogusVM t0).2.2 ≠ [] := by
  refine ⟨rfl, rfl, ?_⟩
  decide

/-- C1 (amended): whenever validation fails, the handler returns exactly
that 400, the database is unchanged, and the only store accesses in the
trace are the two capability-probe reads issued before validation — in
particular no write and no row read occurred. -/
theorem C1_invalid_field_no_write (db : DB) (uid : String) (body : UpdateBody)
    (now msg : String) (h : validate body = some msg) :
    onRequestPatch db uid body now =
      (Resp.badRequest msg, db, [StoreOp.probeTagLayout, StoreOp.probeSortBy]) := by
  simp only [onRequestPatch, h]

/-- Witness for C1: the amended statement at a concrete store and body. -/
theorem C1_invalid_field_no_write_witness :
    onRequestPatch db1 "u1" bodyBogusVM t0 =
      (Resp.badRequest "Invalid view mode", db1, [StoreOp.probeTagLayout, StoreOp.probeSortBy]) :=
  C1_invalid_field_no_write db1 "u1" bodyBogusVM t0 "Invalid view mode" rfl

/- ### C2 -/

/-- C2 counterexample: for a user with no row, UpdatePreferences with a
valid body does not produce a NotFound condition, as the claim demands
for "any operation of this handler": it runs the (vacuous) UPDATE, the
re-read misses, and the handler answers 500 Internal. -/
theorem C2_counterexample :
    (onRequestPatch dbEmpty "u1" bodyDark t0).1 =
      Resp.internalError "Failed to load preferences after update" ∧
    (onRequestGet dbEmpty "u1").1 = Resp.notFound "Preferences not found" := by
  exact ⟨rfl, rfl⟩

/-- C2 (amended): for a user identifier with no row, GetPreferences
fails with NotFound; UpdatePreferences never succeeds — it fails with
BadInput (validation or nothing-to-update) or Internal (missed re-read)
— and neither operation ever creates the row. -/
theorem C2_missing_row (db : DB) (uid : String) (h : db.getRow uid = none) :
    onRequestGet db uid = (Resp.notFound "Preferences not found", db, [StoreOp.selectRow uid]) ∧
    ∀ body now,
      ((∃ m, (onRequestPatch db uid body now).1 = Resp.badRequest m) ∨
        (∃ m, (onRequestPatch db uid body now).1 = Resp.internalError m)) ∧
      (onRequestPatch db uid body now).2.1.getRow uid = none := by
  refine ⟨by simp [onRequestGet, h], ?_⟩
  intro body now
  cases hv : validate body with
  | some msg =>
    simp only [onRequestPatch, hv]
    exact ⟨Or.inl ⟨msg, rfl⟩, h⟩
  | none =>
    cases he : (buildUpdates body db.tagLayoutSupported db.sortBySupported).isEmpty with
    | true =>
      cases hm : ((body.tag_layout.isSome && !db.tagLayoutSupported) ||
          (body.sort_by.isSome && !db.sortBySupported)) with
      | true =>
        simp only [onRequestPatch, hv, he, hm, if_true, h]
        exact ⟨Or.inr ⟨_, rfl⟩, trivial⟩
      | false =>
        simp only [onRequestPatch, hv, he, hm, if_true, Bool.false_eq_true, if_false]
        exact ⟨Or.inl ⟨_, rfl⟩, h⟩
    | false =>
      have h2 : (db.updateUser uid (buildUpdates body db.tagLayoutSupported db.sortBySupported ++
          [("updated_at", SQLVal.str now)])).getRow uid = none := by
        rw [getRow_updateUser, h]; rfl
      simp only [onRequestPatch, hv, he, Bool.false_eq_true, if_false, h2]
      exact ⟨Or.inr ⟨_, rfl⟩, trivial⟩

/-- Witness for C2: the amended statement on the empty store. -/
theorem C2_missing_row_witness :
    (onRequestGet dbEmpty "u1" =
      (Resp.notFound "Preferences not found", dbEmpty, [StoreOp.selectRow "u1"])) ∧
    (((∃ m, (onRequestPatch dbEmpty "u1" bodyDark t0).1 = Resp.badRequest m) ∨
        (∃ m, (onRequestPatch dbEmpty "u1" bodyDark t0).1 = Resp.internalError m)) ∧
      (onRequestPatch dbEmpty "u1" bodyDark t0).2.1.getRow "u1" = none) :=
  ⟨(C2_missing_row dbEmpty "u1" rfl).1, (C2_missing_row dbEmpty "u1" rfl).2 bodyDark t0⟩

/- ### C3 -/

/-- C3 counterexample: `page_size = 0` does skip the range guard, but it
is NOT treated as absent by the assignment builder — `0 !== undefined` —
so the request succeeds and the stored row's `page_size` is overwritten
with 0, refuting "no page_size assignment is written to the store". -/
theorem C3_counterexample :
    (onRequestPatch db1 "u1" bodyPS0 t0).1 =
      Resp.success
        { theme := "light", page_size := 0, view_mode := "list", density := "normal",
          tag_layout := "grid", sort_by := "popular", updated_at := t0 } ∧
    ((onRequestPatch db1 "u1" bodyPS0 t0).2.1.getRow "u1").map Row.page_size = some 0 ∧
    (onRequestPatch db1 "u1" bodyPS0 t0).2.2.any StoreOp.isWrite = true := by
  exact ⟨rfl, rfl, rfl⟩

/-- C3 (amended): a supplied `page_size = 0` skips range validation
(falsy-check) yet is still appended to the assignment list, so whenever
the rest of the body is valid and the row exists, the handler executes a
store write and the stored `page_size` becomes 0. -/
theorem C3_page_size_zero (db : DB) (uid now : String) (body : UpdateBody) (r : Row)
    (h0 : body.page_size = some 0) (hv : validate body = none)
    (hr : db.getRow uid = some r) :
    ∃ r', (onRequestPatch db uid body now).2.1.getRow uid = some r' ∧
      r'.page_size = 0 ∧
      (onRequestPatch db uid body now).1 = Resp.success (project r') ∧
      (onRequestPatch db uid body now).2.2.any StoreOp.isWrite = true := by
  have hne := buildUpdates_nonempty_ps body db.tagLayoutSupported db.sortBySupported 0 h0
  rw [patch_nonempty_eq db uid body now r hv hne hr]
  refine ⟨newRow r body db.tagLayoutSupported db.sortBySupported now, ?_, ?_, rfl, rfl⟩
  · rw [getRow_updateUser, hr, Option.map_some', applyUpdates_buildUpdates]
  · simp [newRow, h0]

/-- Witness for C3: the amended statement on the concrete store. -/
theorem C3_page_size_zero_witness :
    ∃ r', (onRequestPatch db1 "u1" bodyPS0 t0).2.1.getRow "u1" = some r' ∧
      r'.page_size = 0 ∧
      (onRequestPatch db1 "u1" bodyPS0 t0).1 = Resp.success (project r') ∧
      (onRequestPatch db1 "u1" bodyPS0 t0).2.2.any StoreOp.isWrite = true :=
  C3_page_size_zero db1 "u1" t0 bodyPS0 row1 rfl rfl rfl

/- ### C4 -/

/-- C4 counterexample: on a store whose schema lacks `tag_layout`, the
body `{tag_layout: "masonry"}` takes the no-op success branch: the call
succeeds but no row is touched and the reported `updated_at` is the old
stamp, not the request time — refuting "on every successful
UpdatePreferences call ... updated_at is rewritten". -/
theorem C4_counterexample :
    (onRequestPatch dbNoTL "u1" bodyTLOnly t0).1 = Resp.success (project row1) ∧
    (project row1).updated_at = "2023-01-01T00:00:00.000Z" ∧
    (onRequestPatch dbNoTL "u1" bodyTLOnly t0).2.1 = dbNoTL ∧
    ("2023-01-01T00:00:00.000Z" : String) ≠ t0 := by
  refine ⟨rfl, rfl, rfl, ?_⟩
  decide

/-- C4 (amended): on every successful UpdatePreferences call that
actually executes an UPDATE (nonempty assignment list), the stored row's
`updated_at` and the one echoed in the response both become the current
time string `now`; the schema-unsupported no-op success leaves it
unchanged. -/
theorem C4_updated_at_on_update (db : DB) (uid now : String) (body : UpdateBody) (r : Row)
    (hv : validate body = none)
    (hne : (buildUpdates body db.tagLayoutSupported db.sortBySupported).isEmpty = false)
    (hr : db.getRow uid = some r) :
    ∃ r', (onRequestPatch db uid body now).2.1.getRow uid = some r' ∧
      r'.updated_at = now ∧
      (onRequestPatch db uid body now).1 = Resp.success (project r') ∧
      (project r').updated_at = now := by
  rw [patch_nonempty_eq db uid body now r hv hne hr]
  refine ⟨newRow r body db.tagLayoutSupported db.sortBySupported now, ?_, rfl, rfl, rfl⟩
  rw [getRow_updateUser, hr, Option.map_some', applyUpdates_buildUpdates]

/-- Witness for C4: the amended statement on the concrete store. -/
theorem C4_updated_at_on_update_witness :
    ∃ r', (onRequestPatch db1 "u1" bodyDark t0).2.1.getRow "u1" = some r' ∧
      r'.updated_at = t0 ∧
      (onRequestPatch db1 "u1" bodyDark t0).1 = Resp.success (project r') ∧
      (project r').updated_at = t0 :=
  C4_updated_at_on_update db1 "u1" t0 bodyDark row1 rfl
    (buildUpdates_nonempty_theme bodyDark true true "dark" rfl) rfl

/- ### C5 -/

theorem hasColumnProbe_returns_false_iff (col : String) (tr : Option StoreError) :
    hasColumnProbe col tr = ProbeOutcome.returns false ↔
      ∃ e, tr = some e ∧ e.isErrorInstance = true ∧
        ∃ p s, lowerStr e.message = p ++ lowerStr ("no such column: " ++ col) ++ s := by
  cases tr with
  | none => simp [hasColumnProbe]
  | some e =>
    rw [show hasColumnProbe col (some e) =
      (if e.isErrorInstance && containsCI e.message ("no such column: " ++ col) then
        ProbeOutcome.returns false else ProbeOutcome.throws e) from rfl]
    by_cases h : (e.isErrorInstance && containsCI e.message ("no such column: " ++ col)) = true
    · rw [if_pos h]
      rw [Bool.and_eq_true] at h
      simp only [true_iff]
      exact ⟨e, rfl, h.1, (containsCI_iff e.message _).mp h.2⟩
    · rw [if_neg h]
      constructor
      · intro hh
        exact ProbeOutcome.noConfusion hh
      · rintro ⟨e2, he2, hinst, hsub⟩
        injection he2 with he2'
        subst he2'
        refine absurd ?_ h
        rw [Bool.and_eq_true]
        exact ⟨hinst, (containsCI_iff e.message _).mpr hsub⟩

theorem hasColumnProbe_throws (col : String) (e : StoreError)
    (h : hasColumnProbe col (some e) ≠ ProbeOutcome.returns false) :
    hasColumnProbe col (some e) = ProbeOutcome.throws e := by
  rw [show hasColumnProbe col (some e) =
    (if e.isErrorInstance && containsCI e.message ("no such column: " ++ col) then
      ProbeOutcome.returns false else ProbeOutcome.throws e) from rfl] at h ⊢
  by_cases hc : (e.isErrorInstance && containsCI e.message ("no such column: " ++ col)) = true
  · rw [if_pos hc] at h
    exact absurd rfl h
  · rw [if_neg hc]

/-- C5: the capability probe for each optional column returns `false`
exactly when the trial read threw an `Error` whose message contains,
case-insensitively, the text `no such column: <exact column name>` (the
containment is spelled out as a substring decomposition of the
lower-cased message); every non-matching throw is re-raised unchanged as
the very same error value; and an error-free trial read returns `true`. -/
theorem C5_probe_contract :
    (hasTagLayoutColumn none = ProbeOutcome.returns true) ∧
    (hasSortByColumn none = ProbeOutcome.returns true) ∧
    (∀ tr : Option StoreError,
      (hasTagLayoutColumn tr = ProbeOutcome.returns false ↔
        ∃ e, tr = some e ∧ e.isErrorInstance = true ∧
          ∃ p s, lowerStr e.message = p ++ lowerStr "no such column: tag_layout" ++ s)) ∧
    (∀ tr : Option StoreError,
      (hasSortByColumn tr = ProbeOutcome.returns false ↔
        ∃ e, tr = some e ∧ e.isErrorInstance = true ∧
          ∃ p s, lowerStr e.message = p ++ lowerStr "no such column: sort_by" ++ s)) ∧
    (∀ e : StoreError, hasTagLayoutColumn (some e) ≠ ProbeOutcome.returns false →
      hasTagLayoutColumn (some e) = ProbeOutcome.throws e) ∧
    (∀ e : StoreError, hasSortByColumn (some e) ≠ ProbeOutcome.returns false →
      hasSortByColumn (some e) = ProbeOutcome.throws e) :=
  ⟨rfl, rfl,
    fun tr => hasColumnProbe_returns_false_iff "tag_layout" tr,
    fun tr => hasColumnProbe_returns_false_iff "sort_by" tr,
    fun e h => hasColumnProbe_throws "tag_layout" e h,
    fun e h => hasColumnProbe_throws "sort_by" e h⟩

/-- Witness for C5: a matching D1-style error makes the probe report the
column absent; a non-`Error` throw and a mismatched message both
propagate unchanged. -/
theorem C5_probe_contract_witness :
    (hasTagLayoutColumn
      (some { isErrorInstance := true, message := "D1_ERROR: No Such Column: TAG_LAYOUT" }) =
        ProbeOutcome.returns false) ∧
    (hasSortByColumn (some { isErrorInstance := true, message := "database is locked" }) =
      ProbeOutcome.throws { isErrorInstance := true, message := "database is locked" }) :=
  ⟨((C5_probe_contract.2.2.1
      (some { isErrorInstance := true, message := "D1_ERROR: No Such Column: TAG_LAYOUT" })).mpr
    ⟨{ isErrorInstance := true, message := "D1_ERROR: No Such Column: TAG_LAYOUT" }, rfl, rfl,
      "d1_error: ".data, [], by decide⟩),
    C5_probe_contract.2.2.2.2.2 { isErrorInstance := true, message := "database is locked" }
      (by decide)⟩

/- ### C6 -/

/-- C6: when a row exists for the authenticated user, GetPreferences
returns exactly the projection of that row — each field copied verbatim,
with `"grid"` substituted for a null/missing `tag_layout` and
`"popular"` for a null/missing `sort_by` — the database is returned
unchanged, and the trace holds the single row read (no write). -/
theorem C6_get_projection (db : DB) (uid : String) (r : Row) (h : db.getRow uid = some r) :
    onRequestGet db uid =
      (Resp.success
        { theme := r.theme, page_size := r.page_size, view_mode := r.view_mode,
          density := r.density, tag_layout := r.tag_layout.getD "grid",
          sort_by := r.sort_by.getD "popular", updated_at := r.updated_at },
       db, [StoreOp.selectRow uid]) := by
  simp [onRequestGet, h, project]

/-- Witness for C6: the projection of the concrete row, defaults applied
to nothing since both optional fields are set. -/
theorem C6_get_projection_witness :
    onRequestGet db1 "u1" =
      (Resp.success
        { theme := row1.theme, page_size := row1.page_size, view_mode := row1.view_mode,
          density := row1.density, tag_layout := row1.tag_layout.getD "grid",
          sort_by := row1.sort_by.getD "popular", updated_at := row1.updated_at },
       db1, [StoreOp.selectRow "u1"]) :=
  C6_get_projection db1 "u1" row1 rfl

/- ### C7 -/

/-- C7: when validation passes and the assignment list comes out empty,
the handler branches on whether a supplied optional column was dropped
because the schema lacks it: if so, the call is a no-op success that
re-reads and returns the projected current state (the trace shows the
two probes and one row read — no UPDATE); otherwise it fails with the
400 "No valid fields to update" without reading any row. -/
theorem C7_empty_assignments (db : DB) (uid now : String) (body : UpdateBody) (r : Row)
    (hv : validate body = none)
    (he : (buildUpdates body db.tagLayoutSupported db.sortBySupported).isEmpty = true)
    (hr : db.getRow uid = some r) :
    (((body.tag_layout.isSome && !db.tagLayoutSupported) ||
        (body.sort_by.isSome && !db.sortBySupported)) = true →
      onRequestPatch db uid body now =
        (Resp.success (project r), db,
          [StoreOp.probeTagLayout, StoreOp.probeSortBy, StoreOp.selectRow uid])) ∧
    (((body.tag_layout.isSome && !db.tagLayoutSupported) ||
        (body.sort_by.isSome && !db.sortBySupported)) = false →
      onRequestPatch db uid body now =
        (Resp.badRequest "No valid fields to update", db,
          [StoreOp.probeTagLayout, StoreOp.probeSortBy])) := by
  constructor
  · intro hm
    simp only [onRequestPatch, hv, he, hm, if_true, hr, List.cons_append, List.nil_append]
  · intro hm
    simp only [onRequestPatch, hv, he, hm, if_true, Bool.false_eq_true, if_false]

/-- Witness for C7: both branches exercised — the masked optional column
on the old schema yields the no-op success with the default still
reported, and the empty body yields the 400. -/
theorem C7_empty_assignments_witness :
    (onRequestPatch dbNoTL "u1" bodyTLOnly t0 =
      (Resp.success (project row1), dbNoTL,
        [StoreOp.probeTagLayout, StoreOp.probeSortBy, StoreOp.selectRow "u1"])) ∧
    (onRequestPatch db1 "u1" {} t0 =
      (Resp.badRequest "No valid fields to update", db1,
        [StoreOp.probeTagLayout, StoreOp.probeSortBy])) :=
  ⟨(C7_empty_assignments dbNoTL "u1" t0 bodyTLOnly row1 rfl rfl rfl).1 rfl,
    (C7_empty_assignments db1 "u1" t0 {} row1 rfl rfl rfl).2 rfl⟩

/- ### C8 -/

/-- C8: for every body that passes validation, every stored field other
than `updated_at` that the body does not include keeps its value across
the call (whichever branch the handler takes); `user_id` is always
preserved. -/
theorem C8_frame (db : DB) (uid now : String) (body : UpdateBody) (r : Row)
    (hv : validate body = none) (hr : db.getRow uid = some r) :
    ∃ r', (onRequestPatch db uid body now).2.1.getRow uid = some r' ∧
      r'.user_id = r.user_id ∧
      (body.theme = none → r'.theme = r.theme) ∧
      (body.page_size = none → r'.page_size = r.page_size) ∧
      (body.view_mode = none → r'.view_mode = r.view_mode) ∧
      (body.density = none → r'.density = r.density) ∧
      (body.tag_layout = none → r'.tag_layout = r.tag_layout) ∧
      (body.sort_by = none → r'.sort_by = r.sort_by) := by
  cases he : (buildUpdates body db.tagLayoutSupported db.sortBySupported).isEmpty with
  | true =>
    have hdb : (onRequestPatch db uid body now).2.1 = db := by
      cases hm : ((body.tag_layout.isSome && !db.tagLayoutSupported) ||
          (body.sort_by.isSome && !db.sortBySupported)) with
      | true => simp only [onRequestPatch, hv, he, hm, if_true, hr]
      | false => simp only [onRequestPatch, hv, he, hm, if_true, Bool.false_eq_true, if_false]
    rw [hdb, hr]
    exact ⟨r, rfl, rfl, fun _ => rfl, fun _ => rfl, fun _ => rfl, fun _ => rfl,
      fun _ => rfl, fun _ => rfl⟩
  | false =>
    rw [patch_nonempty_eq db uid body now r hv he hr]
    refine ⟨newRow r body db.tagLayoutSupported db.sortBySupported now,
      ?_, rfl, ?_, ?_, ?_, ?_, ?_, ?_⟩
    · rw [getRow_updateUser, hr, Option.map_some', applyUpdates_buildUpdates]
    · intro h; simp [newRow, h]
    · intro h; simp [newRow, h]
    · intro h; simp [newRow, h]
    · intro h; simp [newRow, h]
    · intro h; simp [newRow, h]
    · intro h; simp [newRow, h]

/-- Witness for C8: updating only `theme` leaves the other five mutable
fields of the concrete row untouched. -/
theorem C8_frame_witness :
    ∃ r', (onRequestPatch db1 "u1" bodyDark t0).2.1.getRow "u1" = some r' ∧
      r'.user_id = row1.user_id ∧
      (bodyDark.theme = none → r'.theme = row1.theme) ∧
      (bodyDark.page_size = none → r'.page_size = row1.page_size) ∧
      (bodyDark.view_mode = none → r'.view_mode = row1.view_mode) ∧
      (bodyDark.density = none → r'.density = row1.density) ∧
      (bodyDark.tag_layout = none → r'.tag_layout = row1.tag_layout) ∧
      (bodyDark.sort_by = none → r'.sort_by = row1.sort_by) :=
  C8_frame db1 "u1" t0 bodyDark row1 rfl rfl

/- ### C9 -/

/-- C9: applying the same valid update body twice in sequence (with the
clock reading `now1` then `now2`) leaves all six mutable preference
fields identical between the two resulting rows; only `updated_at`
differs, carrying `now1` after the first call and `now2` after the
second, two distinct stamps whenever the clock readings differ. -/
theorem C9_idempotent (db : DB) (uid : String) (body : UpdateBody) (r : Row) (now1 now2 : String)
    (hv : validate body = none) (hr : db.getRow uid = some r)
    (hne : (buildUpdates body db.tagLayoutSupported db.sortBySupported).isEmpty = false)
    (hnn : now1 ≠ now2) :
    ∃ r1 r2,
      (onRequestPatch db uid body now1).2.1.getRow uid = some r1 ∧
      (onRequestPatch (onRequestPatch db uid body now1).2.1 uid body now2).2.1.getRow uid =
        some r2 ∧
      r2.theme = r1.theme ∧ r2.page_size = r1.page_size ∧ r2.view_mode = r1.view_mode ∧
      r2.density = r1.density ∧ r2.tag_layout = r1.tag_layout ∧ r2.sort_by = r1.sort_by ∧
      r1.updated_at = now1 ∧ r2.updated_at = now2 ∧ r1.updated_at ≠ r2.updated_at := by
  have hg1 : (db.updateUser uid
      (buildUpdates body db.tagLayoutSupported db.sortBySupported ++
        [("updated_at", SQLVal.str now1)])).getRow uid =
      some (newRow r body db.tagLayoutSupported db.sortBySupported now1) := by
    rw [getRow_updateUser, hr, Option.map_some', applyUpdates_buildUpdates]
  refine ⟨newRow r body db.tagLayoutSupported db.sortBySupported now1,
    newRow (newRow r body db.tagLayoutSupported db.sortBySupported now1) body
      db.tagLayoutSupported db.sortBySupported now2,
    ?_, ?_, ?_, ?_, ?_, ?_, ?_, ?_, rfl, rfl, hnn⟩
  · rw [patch_nonempty_eq db uid body now1 r hv hne hr]
    exact hg1
  · rw [patch_nonempty_eq db uid body now1 r hv hne hr]
    rw [patch_nonempty_eq (db.updateUser uid
        (buildUpdates body db.tagLayoutSupported db.sortBySupported ++
          [("updated_at", SQLVal.str now1)])) uid body now2
      (newRow r body db.tagLayoutSupported db.sortBySupported now1) hv hne hg1]
    rw [getRow_updateUser, hg1, Option.map_some', applyUpdates_buildUpdates]
    rfl
  · cases hb : body.theme <;> simp [newRow, hb]
  · cases hb : body.page_size <;> simp [newRow, hb]
  · cases hb : body.view_mode <;> simp [newRow, hb]
  · cases hb : body.density <;> simp [newRow, hb]
  · cases hb : body.tag_layout <;> cases ht : db.tagLayoutSupported <;> simp [newRow, hb, ht]
  · cases hb : body.sort_by <;> cases hs : db.sortBySupported <;> simp [newRow, hb, hs]

/-- Witness for C9: the same `theme := "dark"` body applied twice on the
concrete store, with two distinct clock readings. -/
theorem C9_idempotent_witness :
    ∃ r1 r2,
      (onRequestPatch db1 "u1" bodyDark t0).2.1.getRow "u1" = some r1 ∧
      (onRequestPatch (onRequestPatch db1 "u1" bodyDark t0).2.1 "u1" bodyDark t1).2.1.getRow
        "u1" = some r2 ∧
      r2.theme = r1.theme ∧ r2.page_size = r1.page_size ∧ r2.view_mode = r1.view_mode ∧
      r2.density = r1.density ∧ r2.tag_layout = r1.tag_layout ∧ r2.sort_by = r1.sort_by ∧
      r1.updated_at = t0 ∧ r2.updated_at = t1 ∧ r1.updated_at ≠ r2.updated_at :=
  C9_idempotent db1 "u1" bodyDark row1 t0 t1 rfl rfl
    (buildUpdates_nonempty_theme bodyDark db1.tagLayoutSupported db1.sortBySupported "dark" rfl)
    (by decide)

/- ### C10 -/

/-- C10: for each string-valued field, the explicit empty string is not
a member of the field's enum, yet validation passes (the guard requires
truthiness), the value is appended to the assignment list (the presence
check is only not-undefined), and the call writes `""` to the store and
answers success. Stated for the five single-field bodies
`{theme: ""}`, `{view_mode: ""}`, `{density: ""}`, `{tag_layout: ""}`,
`{sort_by: ""}` (the optional columns on a post-migration schema). -/
theorem C10_empty_string_bypass (db : DB) (uid now : String) (r : Row)
    (hr : db.getRow uid = some r)
    (htl : db.tagLayoutSupported = true) (hsb : db.sortBySupported = true) :
    (themeVals.contains "" = false ∧ validate bodyETheme = none ∧
      buildUpdates bodyETheme db.tagLayoutSupported db.sortBySupported =
        [("theme", SQLVal.str "")] ∧
      ∃ r', (onRequestPatch db uid bodyETheme now).2.1.getRow uid = some r' ∧
        r'.theme = "" ∧
        (onRequestPatch db uid bodyETheme now).1 = Resp.success (project r') ∧
        (onRequestPatch db uid bodyETheme now).2.2.any StoreOp.isWrite = true) ∧
    (viewModeVals.contains "" = false ∧ validate bodyEVM = none ∧
      buildUpdates bodyEVM db.tagLayoutSupported db.sortBySupported =
        [("view_mode", SQLVal.str "")] ∧
      ∃ r', (onRequestPatch db uid bodyEVM now).2.1.getRow uid = some r' ∧
        r'.view_mode = "" ∧
        (onRequestPatch db uid bodyEVM now).1 = Resp.success (project r') ∧
        (onRequestPatch db uid bodyEVM now).2.2.any StoreOp.isWrite = true) ∧
    (densityVals.contains "" = false ∧ validate bodyEDensity = none ∧
      buildUpdates bodyEDensity db.tagLayoutSupported db.sortBySupported =
        [("density", SQLVal.str "")] ∧
      ∃ r', (onRequestPatch db uid bodyEDensity now).2.1.getRow uid = some r' ∧
        r'.density = "" ∧
        (onRequestPatch db uid bodyEDensity now).1 = Resp.success (project r') ∧
        (onRequestPatch db uid bodyEDensity now).2.2.any StoreOp.isWrite = true) ∧
    (tagLayoutVals.contains "" = false ∧ validate bodyETL = none ∧
      buildUpdates bodyETL db.tagLayoutSupported db.sortBySupported =
        [("tag_layout", SQLVal.str "")] ∧
      ∃ r', (onRequestPatch db uid bodyETL now).2.1.getRow uid = some r' ∧
        r'.tag_layout = some "" ∧
        (onRequestPatch db uid bodyETL now).1 = Resp.success (project r') ∧
        (onRequestPatch db uid bodyETL now).2.2.any StoreOp.isWrite = true) ∧
    (sortByVals.contains "" = false ∧ validate bodyESB = none ∧
      buildUpdates bodyESB db.tagLayoutSupported db.sortBySupported =
        [("sort_by", SQLVal.str "")] ∧
      ∃ r', (onRequestPatch db uid bodyESB now).2.1.getRow uid = some r' ∧
        r'.sort_by = some "" ∧
        (onRequestPatch db uid bodyESB now).1 = Resp.success (project r') ∧
        (onRequestPatch db uid bodyESB now).2.2.any StoreOp.isWrite = true) := by
  refine ⟨⟨rfl, rfl, rfl, ?_⟩, ⟨rfl, rfl, rfl, ?_⟩, ⟨rfl, rfl, rfl, ?_⟩,
    ⟨rfl, rfl, by rw [htl]; rfl, ?_⟩, ⟨rfl, rfl, by rw [hsb]; rfl, ?_⟩⟩
  · rw [patch_nonempty_eq db uid bodyETheme now r rfl rfl hr]
    exact ⟨newRow r bodyETheme db.tagLayoutSupported db.sortBySupported now,
      by rw [getRow_updateUser, hr, Option.map_some', applyUpdates_buildUpdates], rfl, rfl, rfl⟩
  · rw [patch_nonempty_eq db uid bodyEVM now r rfl rfl hr]
    exact ⟨newRow r bodyEVM db.tagLayoutSupported db.sortBySupported now,
      by rw [getRow_updateUser, hr, Option.map_some', applyUpdates_buildUpdates], rfl, rfl, rfl⟩
  · rw [patch_nonempty_eq db uid bodyEDensity now r rfl rfl hr]
    exact ⟨newRow r bodyEDensity db.tagLayoutSupported db.sortBySupported now,
      by rw [getRow_updateUser, hr, Option.map_some', applyUpdates_buildUpdates], rfl, rfl, rfl⟩
  · have hne : (buildUpdates bodyETL db.tagLayoutSupported db.sortBySupported).isEmpty = false := by
      rw [htl]
      exact buildUpdates_nonempty_tl bodyETL db.sortBySupported "" rfl
    rw [patch_nonempty_eq db uid bodyETL now r rfl hne hr]
    refine ⟨newRow r bodyETL db.tagLayoutSupported db.sortBySupported now,
      by rw [getRow_updateUser, hr, Option.map_some', applyUpdates_buildUpdates], ?_, rfl, rfl⟩
    simp [newRow, bodyETL, htl]
  · have hne : (buildUpdates bodyESB db.tagLayoutSupported db.sortBySupported).isEmpty = false := by
      rw [hsb]
      exact buildUpdates_nonempty_sb bodyESB db.tagLayoutSupported "" rfl
    rw [patch_nonempty_eq db uid bodyESB now r rfl hne hr]
    refine ⟨newRow r bodyESB db.tagLayoutSupported db.sortBySupported now,
      by rw [getRow_updateUser, hr, Option.map_some', applyUpdates_buildUpdates], ?_, rfl, rfl⟩
    simp [newRow, bodyESB, hsb]

/-- Witness for C10: the five empty-string bodies against the concrete
post-migration store. -/
theorem C10_empty_string_bypass_witness :
    (themeVals.contains "" = false ∧ validate bodyETheme = none ∧
      buildUpdates bodyETheme db1.tagLayoutSupported db1.sortBySupported =
        [("theme", SQLVal.str "")] ∧
      ∃ r', (onRequestPatch db1 "u1" bodyETheme t0).2.1.getRow "u1" = some r' ∧
        r'.theme = "" ∧
        (onRequestPatch db1 "u1" bodyETheme t0).1 = Resp.success (project r') ∧
        (onRequestPatch db1 "u1" bodyETheme t0).2.2.any StoreOp.isWrite = true) ∧
    (viewModeVals.contains "" = false ∧ validate bodyEVM = none ∧
      buildUpdates bodyEVM db1.tagLayoutSupported db1.sortBySupported =
        [("view_mode", SQLVal.str "")] ∧
      ∃ r', (onRequestPatch db1 "u1" bodyEVM t0).2.1.getRow "u1" = some r' ∧
        r'.view_mode = "" ∧
        (onRequestPatch db1 "u1" bodyEVM t0).1 = Resp.success (project r') ∧
        (onRequestPatch db1 "u1" bodyEVM t0).2.2.any StoreOp.isWrite = true) ∧
    (densityVals.contains "" = false ∧ validate bodyEDensity = none ∧
      buildUpdates bodyEDensity db1.tagLayoutSupported db1.sortBySupported =
        [("density", SQLVal.str "")] ∧
      ∃ r', (onRequestPatch db1 "u1" bodyEDensity t0).2.1.getRow "u1" = some r' ∧
        r'.density = "" ∧
        (onRequestPatch db1 "u1" bodyEDensity t0).1 = Resp.success (project r') ∧
        (onRequestPatch db1 "u1" bodyEDensity t0).2.2.any StoreOp.isWrite = true) ∧
    (tagLayoutVals.contains "" = false ∧ validate bodyETL = none ∧
      buildUpdates bodyETL db1.tagLayoutSupported db1.sortBySupported =
        [("tag_layout", SQLVal.str "")] ∧
      ∃ r', (onRequestPatch db1 "u1" bodyETL t0).2.1.getRow "u1" = some r' ∧
        r'.tag_layout = some "" ∧
        (onRequestPatch db1 "u1" bodyETL t0).1 = Resp.success (project r') ∧
        (onRequestPatch db1 "u1" bodyETL t0).2.2.any StoreOp.isWrite = true) ∧
    (sortByVals.contains "" = false ∧ validate bodyESB = none ∧
      buildUpdates bodyESB db1.tagLayoutSupported db1.sortBySupported =
        [("sort_by", SQLVal.str "")] ∧
      ∃ r', (onRequestPatch db1 "u1" bodyESB t0).2.1.getRow "u1" = some r' ∧
        r'.sort_by = some "" ∧
        (onRequestPatch db1 "u1" bodyESB t0).1 = Resp.success (project r') ∧
        (onRequestPatch db1 "u1" bodyESB t0).2.2.any StoreOp.isWrite = true) :=
  C10_empty_string_bypass db1 "u1" t0 row1 rfl rfl rfl

end TMarks
